import Mathlib

/-!
Shallow embedding of the state-change core of the observation portal
(`observation_portal/common/state_changes.py`): request/request-group state
machine, observation state aggregation, and IPP time-ledger accounting,
together with theorems checking the specification's claims against it.

Numeric quantities (hours of IPP time, durations in seconds, completion
percentages) are modelled as rationals with exact arithmetic.
-/

namespace StateChanges

/-- Request / RequestGroup state enum (PENDING, COMPLETED, WINDOW_EXPIRED, CANCELED). -/
inductive RState where
  | PENDING
  | COMPLETED
  | WINDOW_EXPIRED
  | CANCELED
deriving DecidableEq, Repr, Fintype

/-- Observation state enum. -/
inductive OState where
  | PENDING
  | IN_PROGRESS
  | COMPLETED
  | FAILED
  | ABORTED
  | CANCELED
deriving DecidableEq, Repr, Fintype

/-- ConfigurationStatus state enum (the states the aggregation rules inspect). -/
inductive CState where
  | PENDING
  | ATTEMPTED
  | FAILED
  | ABORTED
  | COMPLETED
deriving DecidableEq, Repr, Fintype

/-- RequestGroup observation_type enum. -/
inductive ObsType where
  | NORMAL
  | RAPID_RESPONSE
  | TIME_CRITICAL
  | DIRECT
deriving DecidableEq, Repr, Fintype

/-- RequestGroup operator enum (SINGLE = AND semantics, MANY = OR semantics). -/
inductive Operator where
  | SINGLE
  | MANY
deriving DecidableEq, Repr, Fintype

/-- Embedding of `REQUEST_STATE_MAP`: the legal-transition table of `state_changes.py`. -/
def REQUEST_STATE_MAP : RState → List RState
  | .PENDING => [.COMPLETED, .WINDOW_EXPIRED, .CANCELED]
  | .COMPLETED => []
  | .WINDOW_EXPIRED => [.COMPLETED]
  | .CANCELED => [.COMPLETED]

/-- Embedding of `TERMINAL_REQUEST_STATES`. -/
def TERMINAL_REQUEST_STATES : List RState := [.COMPLETED, .CANCELED, .WINDOW_EXPIRED]

/-- Embedding of `TERMINAL_OBSERVATION_STATES`. -/
def TERMINAL_OBSERVATION_STATES : List OState := [.CANCELED, .ABORTED, .FAILED, .COMPLETED]

/-- Errors raised by the state-change core. -/
inductive CoreError where
  | InvalidStateChange
  | AggregateStateException
  | TimeAllocationError (truncated_max_ipp_allowable : ℚ)
deriving DecidableEq, Repr

/-- Embedding of `valid_request_state_change`: raises `InvalidStateChange` when `new_state` is
not listed under `old_state` in `REQUEST_STATE_MAP`. -/
def valid_request_state_change (old_state new_state : RState) : Except CoreError Unit :=
  if new_state ∈ REQUEST_STATE_MAP old_state then Except.ok ()
  else Except.error CoreError.InvalidStateChange

/-- A proposal time-allocation row: the two fields the IPP ledger reads and mutates. -/
structure TimeAllocation where
  ipp_time_available : ℚ
  ipp_limit : ℚ
deriving DecidableEq, Repr

/-- The `modification` argument of `modify_ipp_time_from_requests`. -/
inductive Modification where
  | debit
  | credit
deriving DecidableEq, Repr

/-- Body of the inner loop of `modify_ipp_time_from_requests` for one
time-allocation row of one request (`ipp_value = ipp_val - 1`; `duration` in
seconds): debit subtracts `duration_hours * ipp_value`, credit adds
`|ipp_value| * duration_hours`, and the result is clamped to the floor 0 and the
ceiling `ipp_limit` (each clamp logs a warning in the source). -/
def modify_ipp_time_single (ipp_val duration : ℚ) (modification : Modification)
    (time_allocation : TimeAllocation) : TimeAllocation :=
  let ipp_value := ipp_val - 1
  let duration_hours := duration / 3600
  let modified_time :=
    match modification with
    | Modification.debit => time_allocation.ipp_time_available - duration_hours * ipp_value
    | Modification.credit => time_allocation.ipp_time_available + |ipp_value| * duration_hours
  let modified_time :=
    if modified_time < 0 then 0
    else if modified_time > time_allocation.ipp_limit then time_allocation.ipp_limit
    else modified_time
  { time_allocation with ipp_time_available := modified_time }

/-- A request as the ledger sees it: its duration (seconds) and the
time-allocation rows it touches. -/
structure IppRequest where
  duration : ℚ
  timeallocations : List TimeAllocation
deriving DecidableEq, Repr

/-- Embedding of `modify_ipp_time_from_requests`: returns immediately when `ipp_val - 1 == 0`,
otherwise applies the clamped debit/credit to every time-allocation row of every
request in the list. -/
def modify_ipp_time_from_requests (ipp_val : ℚ) (requests_list : List IppRequest)
    (modification : Modification) : List IppRequest :=
  let ipp_value := ipp_val - 1
  if ipp_value = 0 then requests_list
  else requests_list.map fun request =>
    { request with timeallocations :=
        request.timeallocations.map (modify_ipp_time_single ipp_val request.duration modification) }

/-- Embedding of `debit_ipp_time`: creation-time debit. No-op when `ipp_value - 1 <= 0`;
otherwise each allocation row touched by the group loses
`(ipp_value - 1) * duration_hours`, with no floor or ceiling clamp. Each list
entry pairs an allocation row with the total duration (seconds) charged to its
allocation key. -/
def debit_ipp_time (request_group_ipp_value : ℚ)
    (allocations : List (TimeAllocation × ℚ)) : List TimeAllocation :=
  let ipp_value := request_group_ipp_value - 1
  if ipp_value ≤ 0 then allocations.map Prod.fst
  else allocations.map fun p =>
    { p.1 with ipp_time_available := p.1.ipp_time_available - ipp_value * (p.2 / 3600) }

/-- Loop of `validate_ipp` over the `(ipp_time_available, duration-in-seconds)`
entries of `total_duration_dict`: the first entry whose available time is below
`duration_hours * ipp_value` raises `TimeAllocationError` carrying
`floor(((available / duration_hours) + 1) * 1000) / 1000`. The source deducts the
simulated debit from its per-key dict as it loops, but each allocation key occurs
once in the dict, so the deduction never affects a later comparison. -/
def validate_ipp_loop (ipp_value : ℚ) : List (ℚ × ℚ) → Except CoreError Unit
  | [] => Except.ok ()
  | (available, duration) :: rest =>
      let duration_hours := duration / 3600
      if available < duration_hours * ipp_value then
        Except.error (CoreError.TimeAllocationError
          ((⌊((available / duration_hours) + 1) * 1000⌋ : ℚ) / 1000))
      else validate_ipp_loop ipp_value rest

/-- Embedding of `validate_ipp`: pre-flight IPP feasibility check; succeeds with no accounting
when `ipp_value - 1 <= 0`. -/
def validate_ipp (request_group_ipp_value : ℚ) (entries : List (ℚ × ℚ)) :
    Except CoreError Unit :=
  let ipp_value := request_group_ipp_value - 1
  if ipp_value ≤ 0 then Except.ok ()
  else validate_ipp_loop ipp_value entries

/-- Embedding of `on_request_state_change`: top-level hook observing a request state change.
Returns the request's time-allocation rows after IPP accounting, or
`InvalidStateChange`. The `try/except TimeAllocationError` of the source around
the WINDOW_EXPIRED → COMPLETED re-debit is dead protection:
`modify_ipp_time_from_requests` catches exceptions internally and never raises. -/
def on_request_state_change (old_state new_state : RState) (observation_type : ObsType)
    (ipp_value : ℚ) (new_request : IppRequest) : Except CoreError (List IppRequest) :=
  if old_state = new_state then Except.ok [new_request]
  else
    match valid_request_state_change old_state new_state with
    | Except.error e => Except.error e
    | Except.ok _ =>
      if observation_type = ObsType.NORMAL then
        let rs := [new_request]
        let rs :=
          if new_state = RState.COMPLETED then
            if ipp_value < 1 then
              modify_ipp_time_from_requests ipp_value rs Modification.credit
            else if old_state = RState.WINDOW_EXPIRED then
              modify_ipp_time_from_requests ipp_value rs Modification.debit
            else rs
          else rs
        let rs :=
          if new_state = RState.CANCELED ∨ new_state = RState.WINDOW_EXPIRED then
            if ipp_value ≥ 1 then
              modify_ipp_time_from_requests ipp_value rs Modification.credit
            else rs
          else rs
        Except.ok rs
      else Except.ok [new_request]

/-- Python `math.isclose` with its default tolerances (`rel_tol = 1e-9`,
`abs_tol = 0`), over exact rationals. -/
def isclose (a b : ℚ) : Prop :=
  |a - b| ≤ max ((1 / 1000000000) * max |a| |b|) 0

instance (a b : ℚ) : Decidable (isclose a b) := by unfold isclose; infer_instance

/-- A ConfigurationStatus row as the request-state updater sees it: the
observation it belongs to and its execution-outcome state. -/
structure ConfigurationStatus (Obs : Type) where
  observation : Obs
  state : CState
deriving DecidableEq, Repr

/-- Embedding of `get_request_state_from_configuration_statuses`: reads
`configuration_statuses[0].observation` (an IndexError — modelled as `none` —
when the list is empty), computes the completion percentage through the external
collaborator `exposure_completion_percentage`, and returns COMPLETED when that
percentage is `isclose` to or at least the acceptability threshold, else the
request's current state. -/
def get_request_state_from_configuration_statuses {Obs : Type}
    (exposure_completion_percentage : Obs → ℚ) (request_state : RState)
    (acceptability_threshold : ℚ)
    (configuration_statuses : List (ConfigurationStatus Obs)) : Option RState :=
  match configuration_statuses with
  | [] => none
  | cs :: _ =>
    let completion_percent := exposure_completion_percentage cs.observation
    if isclose acceptability_threshold completion_percent ∨
        completion_percent ≥ acceptability_threshold then
      some RState.COMPLETED
    else some request_state

/-- Embedding of `update_request_state`. Here `request_state` and `acceptability_threshold` are the
in-memory request's fields; `fresh_state` is the state of the row re-fetched under
the row lock (it may differ from `request_state` under concurrency). Returns
`none` on the IndexError of an empty configuration-status list, otherwise
`some (state_changed, final_row_state)`. -/
def update_request_state {Obs : Type} (exposure_completion_percentage : Obs → ℚ)
    (request_state : RState) (acceptability_threshold : ℚ)
    (configuration_statuses : List (ConfigurationStatus Obs))
    (request_group_expired : Bool) (fresh_state : RState) : Option (Bool × RState) :=
  if request_state = RState.COMPLETED then some (false, fresh_state)
  else
    match get_request_state_from_configuration_statuses exposure_completion_percentage
        request_state acceptability_threshold configuration_statuses with
    | none => none
    | some st =>
      let new_request_state :=
        if st ∉ TERMINAL_REQUEST_STATES ∧ request_group_expired then RState.WINDOW_EXPIRED
        else st
      if new_request_state ∈ REQUEST_STATE_MAP fresh_state then
        some (true, new_request_state)
      else some (false, fresh_state)

/-- The aggregation priority ordering of `aggregate_request_states`: AND semantics
by default, OR semantics for operator MANY. -/
def state_priority (operator : Operator) : List RState :=
  if operator = Operator.MANY then
    [RState.PENDING, RState.COMPLETED, RState.WINDOW_EXPIRED, RState.CANCELED]
  else
    [RState.WINDOW_EXPIRED, RState.PENDING, RState.COMPLETED, RState.CANCELED]

/-- Embedding of `aggregate_request_states`: the first state of the priority list occurring
among the child request states; `AggregateStateException` when none does. -/
def aggregate_request_states (operator : Operator) (request_states : List RState) :
    Except CoreError RState :=
  match (state_priority operator).find? (fun s => decide (s ∈ request_states)) with
  | some s => Except.ok s
  | none => Except.error CoreError.AggregateStateException

/-- Position of a state in the claimed aggregation priority order (default
[WINDOW_EXPIRED, PENDING, COMPLETED, CANCELED]; MANY
[PENDING, COMPLETED, WINDOW_EXPIRED, CANCELED]); written from the spec's words for
comparison with `aggregate_request_states`. -/
def priority_rank : Operator → RState → ℕ
  | Operator.SINGLE, RState.WINDOW_EXPIRED => 0
  | Operator.SINGLE, RState.PENDING => 1
  | Operator.SINGLE, RState.COMPLETED => 2
  | Operator.SINGLE, RState.CANCELED => 3
  | Operator.MANY, RState.PENDING => 0
  | Operator.MANY, RState.COMPLETED => 1
  | Operator.MANY, RState.WINDOW_EXPIRED => 2
  | Operator.MANY, RState.CANCELED => 3

/-- Embedding of `update_observation_state`: recompute an observation's state from its
configuration-status states, first matching rule winning; when no rule matches the
state is left as it was. (The FAILED/ABORTED reschedule-timestamp side effect and
the save are not part of the state computation.) -/
def update_observation_state (obs_state : OState) (states : List CState) : OState :=
  if ∀ s ∈ states, s = CState.PENDING then OState.PENDING
  else if ∀ s ∈ states, s = CState.PENDING ∨ s = CState.ATTEMPTED then OState.IN_PROGRESS
  else if ∃ s ∈ states, s = CState.FAILED then OState.FAILED
  else if ∃ s ∈ states, s = CState.ABORTED then OState.ABORTED
  else if ∀ s ∈ states, s = CState.COMPLETED then OState.COMPLETED
  else obs_state

/-- The observation-state step of `on_configuration_status_state_change`: the
recomputation is skipped entirely when the observation is already in a terminal
state. -/
def observation_state_step (obs_state : OState) (states : List CState) : OState :=
  if obs_state ∈ TERMINAL_OBSERVATION_STATES then obs_state
  else update_observation_state obs_state states

/-- The `request_group_is_expired` computation of
`on_configuration_status_state_change`: a DIRECT group is never expired; otherwise
the group's `max_window_time` is compared with the current time. -/
def request_group_is_expired (observation_type : ObsType)
    (max_window_time now : ℚ) : Bool :=
  if observation_type = ObsType.DIRECT then false
  else decide (max_window_time < now)

/-- Embedding of `on_requestgroup_state_change`: no-op when the state did not change, validates
the observed transition, then for a terminal new state force-sets every PENDING
child request to that state. Returns the child request states after the cascade. -/
def on_requestgroup_state_change (old_state new_state : RState)
    (child_states : List RState) : Except CoreError (List RState) :=
  if old_state = new_state then Except.ok child_states
  else
    match valid_request_state_change old_state new_state with
    | Except.error e => Except.error e
    | Except.ok _ =>
      if new_state ∈ TERMINAL_REQUEST_STATES then
        Except.ok (child_states.map fun s =>
          if s = RState.PENDING then new_state else s)
      else Except.ok child_states

/-- Embedding of `update_request_group_state`: aggregate the child states and apply the result
to the group when it is a legal transition from the (lock-re-fetched) group state,
else leave the group state unchanged; aggregation failure propagates. -/
def update_request_group_state (operator : Operator) (group_state : RState)
    (child_states : List RState) : Except CoreError RState :=
  match aggregate_request_states operator child_states with
  | Except.error e => Except.error e
  | Except.ok new_state =>
    if new_state ∈ REQUEST_STATE_MAP group_state then Except.ok new_state
    else Except.ok group_state

/-- Modelled from the spec: `Request.max_window_time` — "the latest window end"
of the request — as the maximum of the request's window end times, `none` when
the request has no windows (the Request model itself is not under `src/`). -/
def request_max_window_time (window_ends : List ℚ) : Option ℚ :=
  window_ends.max?

/-- A request as the expiration sweeper sees it: its state and its window end
times. -/
structure SweepRequest where
  state : RState
  window_ends : List ℚ
deriving DecidableEq, Repr

/-- A request group as the expiration sweeper sees it. -/
structure SweepGroup where
  state : RState
  observation_type : ObsType
  operator : Operator
  requests : List SweepRequest
deriving DecidableEq, Repr

/-- The sweeper's per-request condition: the request is PENDING and its latest
window end has passed. -/
def sweep_expires (now : ℚ) (r : SweepRequest) : Bool :=
  decide (r.state = RState.PENDING) &&
    match request_max_window_time r.window_ends with
    | some t => decide (t < now)
    | none => false

/-- The sweeper's per-request action: demote an expiring PENDING request to
WINDOW_EXPIRED (the row-lock re-check re-reads PENDING, which this sequential
embedding already guarantees). -/
def sweep_request (now : ℚ) (r : SweepRequest) : SweepRequest :=
  if sweep_expires now r then { r with state := RState.WINDOW_EXPIRED } else r

/-- One group's slice of `update_request_states_for_window_expiration`: terminal
groups are excluded from the scan; within a non-terminal group every request is
swept, and when at least one request changed the group state is recomputed via
`update_request_group_state`. -/
def sweep_group (now : ℚ) (g : SweepGroup) : Except CoreError SweepGroup :=
  if g.state ∈ TERMINAL_REQUEST_STATES then Except.ok g
  else
    let new_requests := g.requests.map (sweep_request now)
    if g.requests.any (sweep_expires now) then
      match update_request_group_state g.operator g.state
          (new_requests.map SweepRequest.state) with
      | Except.ok s => Except.ok { g with requests := new_requests, state := s }
      | Except.error e => Except.error e
    else Except.ok { g with requests := new_requests }

/-- Embedding of `update_request_states_for_window_expiration`: sweep every group. -/
def update_request_states_for_window_expiration (now : ℚ)
    (groups : List SweepGroup) : Except CoreError (List SweepGroup) :=
  groups.mapM (sweep_group now)

/-- From `RequestGroupSerializer.create` (serializers.py): `Window` rows are
created for a request only when the group's `observation_type` is not DIRECT, so
a DIRECT request is persisted with no windows. -/
def created_window_ends (observation_type : ObsType) (windows_data : List ℚ) :
    List ℚ :=
  if observation_type ≠ ObsType.DIRECT then windows_data else []

end StateChanges

namespace StateChanges

/-- C3 (counterexample): the claim asserts `valid_request_state_change` succeeds when
`old == new`; at old = new = PENDING the validator in fact fails with
`InvalidStateChange`. -/
theorem C3_counterexample :
    valid_request_state_change RState.PENDING RState.PENDING =
      Except.error CoreError.InvalidStateChange := rfl

/-- C3 (amended): `valid_request_state_change old new` succeeds iff `new` is listed
under `old` in the legal-transition table; every self-transition `old == old`
fails with `InvalidStateChange` (no state lists itself), the old == new
allowance being implemented in the calling hooks, not in the validator. -/
theorem C3_valid_request_state_change_iff :
    (∀ old_state new_state : RState,
      valid_request_state_change old_state new_state = Except.ok () ↔
        new_state ∈ REQUEST_STATE_MAP old_state) ∧
    (∀ s : RState,
      valid_request_state_change s s = Except.error CoreError.InvalidStateChange) := by
  constructor
  · intro old_state new_state
    unfold valid_request_state_change
    split
    · simp [*]
    · simp [*]
  · intro s
    cases s <;> rfl

/-- C1 (counterexample): a row with `ipp_time_available = 1/2`, `ipp_limit = 20`
satisfies `0 <= available <= limit`, yet the creation-time debit `debit_ipp_time`
with `ipp_value = 2` and a 3600 s duration leaves `ipp_time_available = -1/2 < 0`:
the creation-time mutation path skips the clamp. -/
theorem C1_counterexample :
    (0 : ℚ) ≤ 1/2 ∧ (1/2 : ℚ) ≤ 20 ∧
    debit_ipp_time 2 [(⟨1/2, 20⟩, 3600)] = [⟨-(1/2), 20⟩] ∧
    ¬ (0 : ℚ) ≤ -(1/2 : ℚ) := by
  refine ⟨by norm_num, by norm_num, ?_, by norm_num⟩
  unfold debit_ipp_time
  norm_num

/-- C1 (amended): every mutation performed by `modify_ipp_time_from_requests`
(credit and debit alike) leaves a row that satisfied `0 <= ipp_time_available <=
ipp_limit` within those bounds, clamping instead of raising; but the creation-time
debit `debit_ipp_time` applies no clamp, and can leave `ipp_time_available`
negative (witnessed at available 1/2, limit 20, ipp_value 2, duration 3600 s). -/
theorem C1_clamp_modify_only :
    (∀ (ipp_val duration : ℚ) (modification : Modification) (ta : TimeAllocation),
        0 ≤ ta.ipp_time_available → ta.ipp_time_available ≤ ta.ipp_limit →
        0 ≤ (modify_ipp_time_single ipp_val duration modification ta).ipp_time_available ∧
        (modify_ipp_time_single ipp_val duration modification ta).ipp_time_available ≤
          ta.ipp_limit) ∧
    (debit_ipp_time 2 [(⟨1/2, 20⟩, 3600)]).map TimeAllocation.ipp_time_available =
      [-(1/2)] := by
  constructor
  · intro ipp_val duration modification ta h0 h1
    cases modification <;>
      · simp only [modify_ipp_time_single]
        split_ifs <;> constructor <;> linarith
  · unfold debit_ipp_time
    norm_num

/-- C1 witness: the clamp invariant of the amended claim at a concrete row. -/
theorem C1_clamp_modify_only_witness :
    0 ≤ (modify_ipp_time_single 2 3600 Modification.credit ⟨10, 20⟩).ipp_time_available ∧
    (modify_ipp_time_single 2 3600 Modification.credit ⟨10, 20⟩).ipp_time_available ≤
      (TimeAllocation.mk 10 20).ipp_limit :=
  C1_clamp_modify_only.1 2 3600 Modification.credit ⟨10, 20⟩ (by norm_num) (by norm_num)

/-- On a WINDOW_EXPIRED → COMPLETED NORMAL transition the hook reduces to a
credit for `ipp_value < 1` and a re-debit otherwise. -/
theorem on_request_WE_COMPLETED_eq (ipp_value : ℚ) (request : IppRequest) :
    on_request_state_change RState.WINDOW_EXPIRED RState.COMPLETED ObsType.NORMAL
        ipp_value request =
      Except.ok (if ipp_value < 1 then
          modify_ipp_time_from_requests ipp_value [request] Modification.credit
        else
          modify_ipp_time_from_requests ipp_value [request] Modification.debit) := rfl

/-- C2 (counterexample): for a NORMAL request with `ipp_value = 2`, duration
3600 s, transitioning WINDOW_EXPIRED → COMPLETED with only 1/2 hour of IPP time
available against a re-debit of 1 hour, the hook clamps the row to 0 — it does not
leave it at 1/2 as the claim states. -/
theorem C2_counterexample :
    on_request_state_change RState.WINDOW_EXPIRED RState.COMPLETED ObsType.NORMAL 2
        ⟨3600, [⟨1/2, 20⟩]⟩ =
      Except.ok [⟨3600, [⟨0, 20⟩]⟩] ∧ (0 : ℚ) ≠ 1/2 := by
  refine ⟨?_, by norm_num⟩
  rw [on_request_WE_COMPLETED_eq, if_neg (by norm_num)]
  unfold modify_ipp_time_from_requests modify_ipp_time_single
  norm_num

/-- C2 (amended): on a WINDOW_EXPIRED → COMPLETED transition of a NORMAL group the
hook never blocks (it always returns `ok`; `modify_ipp_time_from_requests` swallows
ledger errors and never raises `TimeAllocationError`), and with `ipp_value >= 1`
it re-debits `(ipp_value - 1) * duration_hours`, clamping the row at the floor 0
when the available time is insufficient (a warning is logged): with available 1/2
and a debit of 1, available becomes 0, not 1/2. -/
theorem C2_redebit_clamped :
    (∀ (ipp_value : ℚ) (request : IppRequest),
      ∃ rs, on_request_state_change RState.WINDOW_EXPIRED RState.COMPLETED
        ObsType.NORMAL ipp_value request = Except.ok rs) ∧
    (∀ (ipp_value : ℚ) (request : IppRequest), 1 ≤ ipp_value →
      on_request_state_change RState.WINDOW_EXPIRED RState.COMPLETED
          ObsType.NORMAL ipp_value request =
        Except.ok (modify_ipp_time_from_requests ipp_value [request] Modification.debit)) ∧
    on_request_state_change RState.WINDOW_EXPIRED RState.COMPLETED ObsType.NORMAL 2
        ⟨3600, [⟨1/2, 20⟩]⟩ =
      Except.ok [⟨3600, [⟨0, 20⟩]⟩] := by
  refine ⟨?_, ?_, ?_⟩
  · intro ipp_value request
    rw [on_request_WE_COMPLETED_eq]
    exact ⟨_, rfl⟩
  · intro ipp_value request h
    rw [on_request_WE_COMPLETED_eq, if_neg (not_lt.mpr h)]
  · rw [on_request_WE_COMPLETED_eq, if_neg (by norm_num)]
    unfold modify_ipp_time_from_requests modify_ipp_time_single
    norm_num

/-- C2 witness: the amended claim's re-debit equation at `ipp_value = 2`. -/
theorem C2_redebit_clamped_witness :
    on_request_state_change RState.WINDOW_EXPIRED RState.COMPLETED
        ObsType.NORMAL 2 ⟨3600, [⟨1/2, 20⟩]⟩ =
      Except.ok (modify_ipp_time_from_requests 2 [⟨3600, [⟨1/2, 20⟩]⟩] Modification.debit) :=
  C2_redebit_clamped.2.1 2 ⟨3600, [⟨1/2, 20⟩]⟩ (by norm_num)

/-- The `validate_ipp` loop succeeds iff no entry has less available time than its
simulated debit `duration_hours * ipp_value`. -/
theorem validate_ipp_loop_ok_iff (v : ℚ) (entries : List (ℚ × ℚ)) :
    validate_ipp_loop v entries = Except.ok () ↔
      ∀ p ∈ entries, ¬ p.1 < p.2 / 3600 * v := by
  induction entries with
  | nil => simp [validate_ipp_loop]
  | cons p rest ih =>
    obtain ⟨a, d⟩ := p
    simp only [validate_ipp_loop]
    split_ifs with h
    · simp only [List.mem_cons, forall_eq_or_imp]
      constructor
      · intro hc; exact absurd hc (by simp)
      · rintro ⟨h1, -⟩; exact absurd h h1
    · rw [ih]
      constructor
      · intro hrest p hp
        rcases List.mem_cons.mp hp with rfl | hp'
        · exact h
        · exact hrest p hp'
      · intro hall p hp
        exact hall p (List.mem_cons_of_mem _ hp)

/-- C9: `validate_ipp` performs no accounting and succeeds when `ipp_value <= 1`;
for `ipp_value > 1` it succeeds iff every touched allocation has at least
`duration_hours * (ipp_value - 1)` available; an insufficient allocation fails
with `TimeAllocationError` carrying
`floor(((available / duration_hours) + 1) * 1000) / 1000`; and concretely
available 5 h, duration 36000 s (10 h), `ipp_value = 1.6` fails carrying the
maximum feasible value 1.5. -/
theorem C9_validate_ipp :
    (∀ (ipp : ℚ) (entries : List (ℚ × ℚ)), ipp ≤ 1 →
      validate_ipp ipp entries = Except.ok ()) ∧
    (∀ (ipp : ℚ) (entries : List (ℚ × ℚ)), 1 < ipp →
      (validate_ipp ipp entries = Except.ok () ↔
        ∀ p ∈ entries, ¬ p.1 < p.2 / 3600 * (ipp - 1))) ∧
    (∀ (ipp a d : ℚ) (rest : List (ℚ × ℚ)), 1 < ipp → a < d / 3600 * (ipp - 1) →
      validate_ipp ipp ((a, d) :: rest) =
        Except.error (CoreError.TimeAllocationError
          ((⌊(a / (d / 3600) + 1) * 1000⌋ : ℚ) / 1000))) ∧
    validate_ipp (16/10) [(5, 36000)] =
      Except.error (CoreError.TimeAllocationError (3/2)) := by
  refine ⟨?_, ?_, ?_, ?_⟩
  · intro ipp entries h
    unfold validate_ipp
    rw [if_pos (by linarith)]
  · intro ipp entries h
    unfold validate_ipp
    rw [if_neg (by linarith), validate_ipp_loop_ok_iff]
  · intro ipp a d rest h hlt
    unfold validate_ipp
    rw [if_neg (by linarith)]
    simp only [validate_ipp_loop]
    rw [if_pos hlt]
  · unfold validate_ipp validate_ipp_loop
    norm_num

/-- C9 witness: the `ipp_value <= 1` no-accounting branch and the head-failure
error at concrete inputs. -/
theorem C9_validate_ipp_witness :
    validate_ipp 1 [(5, 36000)] = Except.ok () ∧
    validate_ipp (16/10) [(5, 36000)] =
      Except.error (CoreError.TimeAllocationError
        ((⌊((5 : ℚ) / ((36000 : ℚ) / 3600) + 1) * 1000⌋ : ℚ) / 1000)) :=
  ⟨C9_validate_ipp.1 1 [(5, 36000)] (by norm_num),
   C9_validate_ipp.2.2.1 (16/10) 5 36000 [] (by norm_num) (by norm_num)⟩

/-- C5: `update_request_state` returns unchanged (`False`, row state untouched)
for an already-COMPLETED request; otherwise the candidate state is COMPLETED when
the completion percentage is `isclose` to or at least the acceptability
threshold, else the current state; a non-terminal candidate of an expired group
becomes WINDOW_EXPIRED; the candidate is applied iff it is a legal transition
from the lock-re-fetched row state, with return value `True` exactly when it was
applied, and the row left unchanged otherwise. -/
theorem C5_update_request_state :
    (∀ (Obs : Type) (ecp : Obs → ℚ) (thr : ℚ)
        (css : List (ConfigurationStatus Obs)) (expired : Bool) (fresh : RState),
      update_request_state ecp RState.COMPLETED thr css expired fresh =
        some (false, fresh)) ∧
    (∀ (Obs : Type) (ecp : Obs → ℚ) (request_state : RState) (thr : ℚ)
        (cs : ConfigurationStatus Obs) (rest : List (ConfigurationStatus Obs))
        (expired : Bool) (fresh : RState),
      request_state ≠ RState.COMPLETED →
      update_request_state ecp request_state thr (cs :: rest) expired fresh =
        (let completion_percent := ecp cs.observation
         let candidate :=
           if isclose thr completion_percent ∨ completion_percent ≥ thr then
             RState.COMPLETED
           else request_state
         let candidate :=
           if candidate ∉ TERMINAL_REQUEST_STATES ∧ expired then RState.WINDOW_EXPIRED
           else candidate
         if candidate ∈ REQUEST_STATE_MAP fresh then some (true, candidate)
         else some (false, fresh))) := by
  constructor
  · intro Obs ecp thr css expired fresh
    unfold update_request_state
    simp
  · intro Obs ecp request_state thr cs rest expired fresh h
    unfold update_request_state get_request_state_from_configuration_statuses
    simp only [if_neg h]
    by_cases hc : isclose thr (ecp cs.observation) ∨ ecp cs.observation ≥ thr
    · simp only [if_pos hc]
    · simp only [if_neg hc]

/-- C5 witness: an ATTEMPTED-percentage request below threshold in a fresh
PENDING row of an expired group is applied as WINDOW_EXPIRED. -/
theorem C5_update_request_state_witness :
    update_request_state (fun _ => (50 : ℚ)) RState.PENDING 90
        [ConfigurationStatus.mk () CState.ATTEMPTED] true RState.PENDING =
      (let completion_percent := (fun _ => (50 : ℚ)) ()
       let candidate :=
         if isclose 90 completion_percent ∨ completion_percent ≥ 90 then
           RState.COMPLETED
         else RState.PENDING
       let candidate :=
         if candidate ∉ TERMINAL_REQUEST_STATES ∧ true then RState.WINDOW_EXPIRED
         else candidate
       if candidate ∈ REQUEST_STATE_MAP RState.PENDING then some (true, candidate)
       else some (false, RState.PENDING)) :=
  C5_update_request_state.2 Unit (fun _ => (50 : ℚ)) RState.PENDING 90
    (ConfigurationStatus.mk () CState.ATTEMPTED) [] true RState.PENDING (by decide)

/-- C10: non-emptiness of the configuration-status list is an unstated
precondition — for a request not already COMPLETED, `update_request_state` on an
empty list fails (the source raises IndexError at `configuration_statuses[0]`)
instead of returning a result. -/
theorem C10_empty_configuration_statuses :
    ∀ (Obs : Type) (ecp : Obs → ℚ) (request_state : RState) (thr : ℚ)
      (expired : Bool) (fresh : RState),
      request_state ≠ RState.COMPLETED →
      update_request_state ecp request_state thr
        ([] : List (ConfigurationStatus Obs)) expired fresh = none := by
  intro Obs ecp request_state thr expired fresh h
  unfold update_request_state get_request_state_from_configuration_statuses
  simp [h]

/-- C10 witness: the empty-list failure at a concrete PENDING request. -/
theorem C10_empty_configuration_statuses_witness :
    update_request_state (fun _ : Unit => (0 : ℚ)) RState.PENDING 90 [] false
      RState.PENDING = none :=
  C10_empty_configuration_statuses Unit (fun _ => 0) RState.PENDING 90 false
    RState.PENDING (by decide)

/-- C7: for a non-terminal observation the state is recomputed by the first
matching rule — all PENDING → PENDING; all PENDING/ATTEMPTED → IN_PROGRESS; any
FAILED → FAILED; any ABORTED → ABORTED; all COMPLETED → COMPLETED — and when no
rule matches the state is left exactly as it was; a terminal observation is
skipped entirely. -/
theorem C7_update_observation_state :
    (∀ (obs_state : OState) (states : List CState),
      obs_state ∉ TERMINAL_OBSERVATION_STATES →
      observation_state_step obs_state states = update_observation_state obs_state states) ∧
    (∀ (obs_state : OState) (states : List CState),
      ((∀ s ∈ states, s = CState.PENDING) →
        update_observation_state obs_state states = OState.PENDING) ∧
      (¬ (∀ s ∈ states, s = CState.PENDING) →
        (∀ s ∈ states, s = CState.PENDING ∨ s = CState.ATTEMPTED) →
        update_observation_state obs_state states = OState.IN_PROGRESS) ∧
      (¬ (∀ s ∈ states, s = CState.PENDING ∨ s = CState.ATTEMPTED) →
        (∃ s ∈ states, s = CState.FAILED) →
        update_observation_state obs_state states = OState.FAILED) ∧
      (¬ (∀ s ∈ states, s = CState.PENDING ∨ s = CState.ATTEMPTED) →
        ¬ (∃ s ∈ states, s = CState.FAILED) →
        (∃ s ∈ states, s = CState.ABORTED) →
        update_observation_state obs_state states = OState.ABORTED) ∧
      (¬ (∀ s ∈ states, s = CState.PENDING) →
        ¬ (∃ s ∈ states, s = CState.FAILED) →
        ¬ (∃ s ∈ states, s = CState.ABORTED) →
        (∀ s ∈ states, s = CState.COMPLETED) →
        update_observation_state obs_state states = OState.COMPLETED) ∧
      (¬ (∀ s ∈ states, s = CState.PENDING ∨ s = CState.ATTEMPTED) →
        ¬ (∃ s ∈ states, s = CState.FAILED) →
        ¬ (∃ s ∈ states, s = CState.ABORTED) →
        ¬ (∀ s ∈ states, s = CState.COMPLETED) →
        update_observation_state obs_state states = obs_state)) := by
  constructor
  · intro obs_state states h
    unfold observation_state_step
    simp [h]
  · intro obs_state states
    refine ⟨?_, ?_, ?_, ?_, ?_, ?_⟩
    · intro h1
      unfold update_observation_state
      rw [if_pos h1]
    · intro h1 h2
      unfold update_observation_state
      rw [if_neg h1, if_pos h2]
    · intro h2 h3
      unfold update_observation_state
      have h1 : ¬ ∀ s ∈ states, s = CState.PENDING :=
        fun h => h2 fun s hs => Or.inl (h s hs)
      rw [if_neg h1, if_neg h2, if_pos h3]
    · intro h2 h3 h4
      unfold update_observation_state
      have h1 : ¬ ∀ s ∈ states, s = CState.PENDING :=
        fun h => h2 fun s hs => Or.inl (h s hs)
      rw [if_neg h1, if_neg h2, if_neg h3, if_pos h4]
    · intro h1 h3 h4 h5
      unfold update_observation_state
      have h2 : ¬ ∀ s ∈ states, s = CState.PENDING ∨ s = CState.ATTEMPTED := by
        intro h2
        apply h1
        intro s hs
        have hc := h5 s hs
        rcases h2 s hs with h | h
        · exact h
        · rw [hc] at h; cases h
      rw [if_neg h1, if_neg h2, if_neg h3, if_neg h4, if_pos h5]
    · intro h2 h3 h4 h5
      unfold update_observation_state
      have h1 : ¬ ∀ s ∈ states, s = CState.PENDING :=
        fun h => h2 fun s hs => Or.inl (h s hs)
      rw [if_neg h1, if_neg h2, if_neg h3, if_neg h4, if_neg h5]

/-- C7 witness: rule applications on concrete status lists. -/
theorem C7_update_observation_state_witness :
    observation_state_step OState.IN_PROGRESS [CState.ATTEMPTED, CState.PENDING] =
      update_observation_state OState.IN_PROGRESS [CState.ATTEMPTED, CState.PENDING] ∧
    update_observation_state OState.PENDING [CState.FAILED, CState.COMPLETED] =
      OState.FAILED ∧
    update_observation_state OState.IN_PROGRESS [CState.COMPLETED, CState.PENDING] =
      OState.IN_PROGRESS :=
  ⟨(C7_update_observation_state.1 OState.IN_PROGRESS _ (by decide)),
   ((C7_update_observation_state.2 OState.PENDING
      [CState.FAILED, CState.COMPLETED]).2.2.1 (by decide) (by decide)),
   ((C7_update_observation_state.2 OState.IN_PROGRESS
      [CState.COMPLETED, CState.PENDING]).2.2.2.2.2 (by decide) (by decide)
        (by decide) (by decide))⟩

/-- C8: when the group hook observes a valid transition into a terminal state,
every PENDING child request is force-set to that same state and every other
child is left unchanged. -/
theorem C8_terminal_cascade :
    ∀ (old_state new_state : RState) (child_states : List RState),
      old_state ≠ new_state →
      new_state ∈ REQUEST_STATE_MAP old_state →
      new_state ∈ TERMINAL_REQUEST_STATES →
      on_requestgroup_state_change old_state new_state child_states =
        Except.ok (child_states.map fun s =>
          if s = RState.PENDING then new_state else s) := by
  intro old_state new_state child_states hne hvalid hterm
  unfold on_requestgroup_state_change valid_request_state_change
  simp [hne, hvalid, hterm]

/-- C8 witness: a PENDING → CANCELED group transition cancels the PENDING child
and leaves the COMPLETED child alone. -/
theorem C8_terminal_cascade_witness :
    on_requestgroup_state_change RState.PENDING RState.CANCELED
        [RState.PENDING, RState.COMPLETED] =
      Except.ok [RState.CANCELED, RState.COMPLETED] :=
  C8_terminal_cascade RState.PENDING RState.CANCELED
    [RState.PENDING, RState.COMPLETED] (by decide) (by decide) (by decide)

/-- List search `find?` for membership returns exactly the first-positioned element of
`l` that occurs in `states`. -/
theorem find?_mem_iff_first (l states : List RState) (s : RState) :
    l.find? (fun t => decide (t ∈ states)) = some s ↔
      s ∈ l ∧ s ∈ states ∧
        ∀ t ∈ l, t ∈ states → l.indexOf s ≤ l.indexOf t := by
  induction l with
  | nil => simp
  | cons a l ih =>
    by_cases ha : a ∈ states
    · rw [List.find?_cons_of_pos _ (by simpa using ha)]
      constructor
      · intro h
        obtain rfl : a = s := by simpa using h
        refine ⟨List.mem_cons_self a l, ha, fun t ht hts => ?_⟩
        rw [List.indexOf_cons_self]
        exact Nat.zero_le _
      · rintro ⟨hsl, hss, hmin⟩
        by_cases hsa : a = s
        · rw [hsa]
        · have h0 := hmin a (List.mem_cons_self a l) ha
          rw [List.indexOf_cons_self, List.indexOf_cons_ne _ hsa] at h0
          exact absurd h0 (by omega)
    · rw [List.find?_cons_of_neg _ (by simpa using ha)]
      rw [ih]
      constructor
      · rintro ⟨hsl, hss, hmin⟩
        have hsa : a ≠ s := fun h => ha (h ▸ hss)
        refine ⟨List.mem_cons_of_mem _ hsl, hss, fun t ht hts => ?_⟩
        have hta : a ≠ t := fun h => ha (h ▸ hts)
        rcases List.mem_cons.mp ht with rfl | htl
        · exact absurd rfl hta
        · rw [List.indexOf_cons_ne _ hsa, List.indexOf_cons_ne _ hta]
          exact Nat.succ_le_succ (hmin t htl hts)
      · rintro ⟨hsl, hss, hmin⟩
        have hsa : a ≠ s := fun h => ha (h ▸ hss)
        have hsl' : s ∈ l := by
          rcases List.mem_cons.mp hsl with rfl | hmem
          · exact absurd rfl hsa
          · exact hmem
        refine ⟨hsl', hss, fun t htl hts => ?_⟩
        have hta : a ≠ t := fun h => ha (h ▸ hts)
        have hle := hmin t (List.mem_cons_of_mem _ htl) hts
        rw [List.indexOf_cons_ne _ hsa, List.indexOf_cons_ne _ hta] at hle
        omega

/-- Both priority orderings enumerate the whole (closed) state enum. -/
theorem mem_state_priority (op : Operator) (t : RState) : t ∈ state_priority op := by
  cases op <;> cases t <;> decide

/-- C6: `aggregate_request_states` returns exactly the priority-first child state
(the member of the child-state list minimizing its position in the operator's
priority list), fails with `AggregateStateException` exactly when the child-state
list is empty (with a closed state enum, "contains no state from the priority
list" coincides with empty), and on the concrete spec scenarios: SINGLE
{PENDING, COMPLETED} → PENDING, SINGLE {COMPLETED} → COMPLETED, MANY
{PENDING, CANCELED} → PENDING. -/
theorem C6_aggregate_request_states :
    (∀ (op : Operator) (states : List RState) (s : RState),
      aggregate_request_states op states = Except.ok s ↔
        s ∈ states ∧ ∀ t ∈ states,
          (state_priority op).indexOf s ≤ (state_priority op).indexOf t) ∧
    (∀ (op : Operator) (states : List RState),
      aggregate_request_states op states =
          Except.error CoreError.AggregateStateException ↔ states = []) ∧
    aggregate_request_states Operator.SINGLE [RState.PENDING, RState.COMPLETED] =
      Except.ok RState.PENDING ∧
    aggregate_request_states Operator.SINGLE [RState.COMPLETED] =
      Except.ok RState.COMPLETED ∧
    aggregate_request_states Operator.MANY [RState.PENDING, RState.CANCELED] =
      Except.ok RState.PENDING := by
  refine ⟨?_, ?_, rfl, rfl, rfl⟩
  · intro op states s
    unfold aggregate_request_states
    constructor
    · intro h
      cases hf : (state_priority op).find? (fun t => decide (t ∈ states)) with
      | none => rw [hf] at h; exact absurd h (by simp)
      | some v =>
        rw [hf] at h
        obtain rfl : v = s := by simpa using h
        have hfirst := (find?_mem_iff_first _ states _).mp hf
        exact ⟨hfirst.2.1, fun t ht => hfirst.2.2 t (mem_state_priority op t) ht⟩
    · rintro ⟨hs, hmin⟩
      have hf : (state_priority op).find? (fun t => decide (t ∈ states)) = some s :=
        (find?_mem_iff_first _ states s).mpr
          ⟨mem_state_priority op s, hs, fun t _ ht => hmin t ht⟩
      rw [hf]
  · intro op states
    constructor
    · intro h
      unfold aggregate_request_states at h
      cases hf : (state_priority op).find? (fun t => decide (t ∈ states)) with
      | none =>
        rw [List.find?_eq_none] at hf
        by_contra hne
        obtain ⟨t, ht⟩ := List.exists_mem_of_ne_nil states hne
        exact (by simpa using hf t (mem_state_priority op t) : t ∉ states) ht
      | some v => rw [hf] at h; exact absurd h (by simp)
    · rintro rfl
      cases op <;> rfl

/-- C6 witness: the error case at the empty child list and the priority-first
characterization at SINGLE {PENDING, COMPLETED}. -/
theorem C6_aggregate_request_states_witness :
    (aggregate_request_states Operator.SINGLE [] =
        Except.error CoreError.AggregateStateException ↔ ([] : List RState) = []) ∧
    (aggregate_request_states Operator.MANY [RState.CANCELED, RState.COMPLETED] =
        Except.ok RState.COMPLETED ↔
      RState.COMPLETED ∈ [RState.CANCELED, RState.COMPLETED] ∧
        ∀ t ∈ [RState.CANCELED, RState.COMPLETED],
          (state_priority Operator.MANY).indexOf RState.COMPLETED ≤
            (state_priority Operator.MANY).indexOf t) :=
  ⟨C6_aggregate_request_states.2.1 Operator.SINGLE [],
   C6_aggregate_request_states.1 Operator.MANY [RState.CANCELED, RState.COMPLETED]
     RState.COMPLETED⟩

/-- A map that fixes every member of a list is the identity on it. -/
theorem map_id_of_mem {α : Type} (l : List α) (f : α → α)
    (h : ∀ a ∈ l, f a = a) : l.map f = l := by
  induction l with
  | nil => rfl
  | cons a l ih =>
    simp only [List.map_cons, h a (List.mem_cons_self a l),
      ih fun b hb => h b (List.mem_cons_of_mem a hb)]

/-- Unfolding of `update_request_state` on a non-empty configuration-status
list. -/
theorem update_request_state_cons {Obs : Type} (ecp : Obs → ℚ)
    (request_state : RState) (thr : ℚ) (cs : ConfigurationStatus Obs)
    (rest : List (ConfigurationStatus Obs)) (expired : Bool) (fresh : RState) :
    update_request_state ecp request_state thr (cs :: rest) expired fresh =
      (if request_state = RState.COMPLETED then some (false, fresh)
       else
        let st :=
          if isclose thr (ecp cs.observation) ∨ ecp cs.observation ≥ thr then
            RState.COMPLETED
          else request_state
        let candidate :=
          if st ∉ TERMINAL_REQUEST_STATES ∧ expired then RState.WINDOW_EXPIRED else st
        if candidate ∈ REQUEST_STATE_MAP fresh then some (true, candidate)
        else some (false, fresh)) := by
  unfold update_request_state get_request_state_from_configuration_statuses
  by_cases hC : request_state = RState.COMPLETED
  · rw [if_pos hC, if_pos hC]
  · rw [if_neg hC, if_neg hC]
    by_cases hP : isclose thr (ecp cs.observation) ∨ ecp cs.observation ≥ thr
    · simp only [if_pos hP]
    · simp only [if_neg hP]

/-- C4: a DIRECT group's requests are never moved to WINDOW_EXPIRED.
(1) The sweeper leaves a DIRECT group (whose requests, per the serializer's
creation path, have no windows and hence no latest window end that could have
passed) completely unchanged; (2) the configuration-status cascade computes
`request_group_is_expired = False` for a DIRECT group regardless of
`max_window_time`; (3) with that flag false, `update_request_state` never ends a
row in WINDOW_EXPIRED unless it was already there; (4) group aggregation never
produces WINDOW_EXPIRED without a WINDOW_EXPIRED child; (5) the serializer
persists no window rows for a DIRECT group's requests. -/
theorem C4_direct_never_window_expired :
    (∀ (now : ℚ) (g : SweepGroup),
      g.observation_type = ObsType.DIRECT →
      (∀ r ∈ g.requests, r.window_ends = []) →
      sweep_group now g = Except.ok g) ∧
    (∀ (max_window_time now : ℚ),
      request_group_is_expired ObsType.DIRECT max_window_time now = false) ∧
    (∀ (Obs : Type) (ecp : Obs → ℚ) (request_state : RState) (thr : ℚ)
        (css : List (ConfigurationStatus Obs)) (fresh : RState)
        (changed : Bool) (final : RState),
      request_state ≠ RState.WINDOW_EXPIRED → fresh ≠ RState.WINDOW_EXPIRED →
      update_request_state ecp request_state thr css false fresh =
        some (changed, final) →
      final ≠ RState.WINDOW_EXPIRED) ∧
    (∀ (op : Operator) (states : List RState),
      RState.WINDOW_EXPIRED ∉ states →
      aggregate_request_states op states ≠ Except.ok RState.WINDOW_EXPIRED) ∧
    (∀ (windows_data : List ℚ),
      created_window_ends ObsType.DIRECT windows_data = []) := by
  refine ⟨?_, fun _ _ => rfl, ?_, ?_, fun _ => rfl⟩
  · intro now g hdir hw
    unfold sweep_group
    by_cases ht : g.state ∈ TERMINAL_REQUEST_STATES
    · rw [if_pos ht]
    · rw [if_neg ht]
      have hexp : ∀ r ∈ g.requests, sweep_expires now r = false := by
        intro r hr
        unfold sweep_expires request_max_window_time
        rw [hw r hr]
        simp
      have hmap : g.requests.map (sweep_request now) = g.requests := by
        apply map_id_of_mem
        intro r hr
        unfold sweep_request
        rw [hexp r hr]
        rfl
      have hany : g.requests.any (sweep_expires now) = false := by
        rw [List.any_eq_false]
        intro r hr
        rw [hexp r hr]
        simp
      simp only [hmap, hany, Bool.false_eq_true, if_false]
  · intro Obs ecp request_state thr css fresh changed final hstate hfresh h
    rcases css with _ | ⟨cs, rest⟩
    · by_cases hC : request_state = RState.COMPLETED
      · unfold update_request_state at h
        rw [if_pos hC] at h
        obtain ⟨-, rfl⟩ : false = changed ∧ fresh = final := by simpa using h
        exact hfresh
      · unfold update_request_state get_request_state_from_configuration_statuses at h
        rw [if_neg hC] at h
        exact Option.noConfusion h
    · rw [update_request_state_cons] at h
      by_cases hC : request_state = RState.COMPLETED
      · rw [if_pos hC] at h
        obtain ⟨-, rfl⟩ : false = changed ∧ fresh = final := by simpa using h
        exact hfresh
      · rw [if_neg hC] at h
        set st := if isclose thr (ecp cs.observation) ∨ ecp cs.observation ≥ thr then
          RState.COMPLETED else request_state with hst
        have hstw : st ≠ RState.WINDOW_EXPIRED := by
          rw [hst]
          split
          · exact fun hc => by cases hc
          · exact hstate
        simp only [Bool.false_eq_true, and_false, if_false] at h
        split at h
        · obtain ⟨-, rfl⟩ : true = changed ∧ st = final := by simpa using h
          exact hstw
        · obtain ⟨-, rfl⟩ : false = changed ∧ fresh = final := by simpa using h
          exact hfresh
  · intro op states hnot hc
    unfold aggregate_request_states at hc
    cases hf : (state_priority op).find? (fun t => decide (t ∈ states)) with
    | none => rw [hf] at hc; exact absurd hc (by simp)
    | some v =>
      rw [hf] at hc
      obtain rfl : v = RState.WINDOW_EXPIRED := by simpa using hc
      exact hnot (by simpa using List.find?_some hf)

/-- C4 witness: the sweeper leaves a concrete windowless PENDING DIRECT group
untouched, and the updater keeps a concrete PENDING request out of
WINDOW_EXPIRED when the expired flag is false. -/
theorem C4_direct_never_window_expired_witness :
    sweep_group 0 (SweepGroup.mk RState.PENDING ObsType.DIRECT Operator.SINGLE
        [SweepRequest.mk RState.PENDING []]) =
      Except.ok (SweepGroup.mk RState.PENDING ObsType.DIRECT Operator.SINGLE
        [SweepRequest.mk RState.PENDING []]) ∧
    (RState.COMPLETED : RState) ≠ RState.WINDOW_EXPIRED :=
  ⟨C4_direct_never_window_expired.1 0
      (SweepGroup.mk RState.PENDING ObsType.DIRECT Operator.SINGLE
        [SweepRequest.mk RState.PENDING []]) rfl (by simp),
   C4_direct_never_window_expired.2.2.1 Unit (fun _ => 100) RState.PENDING 90
      [ConfigurationStatus.mk () CState.COMPLETED] RState.PENDING true
      RState.COMPLETED (by decide) (by decide)
      (by rw [update_request_state_cons]
          norm_num [TERMINAL_REQUEST_STATES, REQUEST_STATE_MAP]
          decide)⟩

end StateChanges
